import Mathlib

/-!
Verification of the LSP adapter of the zk note-taking tool
(`src/internal/adapter/lsp/server.go`) against its natural-language
specification.

The Go code is shallowly embedded: pure functions become Lean functions,
fallible Go functions returning `(value, error)` pairs become
`Except String _`, and the external collaborators (note index, document
model, template rendering, filepath library) become explicit function-valued
fields of environment records, so the theorems quantify over every possible
collaborator behaviour.  Functions that call the index are instrumented to
also return the list of index queries they issued, so that claims about
"no index query is issued" are directly expressible.
-/

namespace Zk

/-- A position in a document (LSP `protocol.Position`); `line` and
`character` are Go `uint32` values, modelled as `Nat` (wrap-around is made
explicit where the code does arithmetic on them). -/
structure Position where
  line : Nat
  character : Nat
deriving DecidableEq, Repr

/-- A range in a document (LSP `protocol.Range`).  `startPos`/`endPos`
stand for the Go fields `Start`/`End` (`end` is a Lean keyword). -/
structure Range where
  startPos : Position
  endPos : Position
deriving DecidableEq, Repr

/-- `core.MinimalNote`: what the index returns for a note. -/
structure MinimalNote where
  path : String
  title : String
deriving DecidableEq, Repr

/-- A link extracted from a document (`documentLink` in the Go code):
href string, source range, and the `HasTitle` / `IsWikiLink` flags. -/
structure DocumentLink where
  href : String
  range : Range
  hasTitle : Bool
  isWikiLink : Bool
deriving DecidableEq, Repr

/-- An open document.  The document model (`documentStore`) is not under
`src/`; per the spec (§3, §4.1) a document has a URI, an absolute path,
its current text (modelled as lines, since the look-behind/forward
operations never cross a newline) and the per-document refresh flag
`NeedsRefreshDiagnostics`. -/
structure Document where
  uri : String
  path : String
  lines : List String
  needsRefreshDiagnostics : Bool
deriving DecidableEq, Repr

/-- An index query issued by the resolver: `notebook.FindByHref(href,
partialMatch)` or `notebook.FindMatching(query)`. -/
inductive Query where
  | findByHref (href : String) (fuzzyMatch : Bool)
  | findMatching (q : String)
deriving DecidableEq, Repr

/-- Severity levels of the LSP diagnostics configuration
(`core.LSPDiagnosticSeverity`, not under `src/`): `0` is
`core.LSPDiagnosticNone` ("none"), positive values are the enabled
severities that the code casts to `protocol.DiagnosticSeverity`. -/
abbrev LSPDiagnosticSeverity := Nat

/-- The `Config.LSP.Diagnostics` part of the notebook configuration. -/
structure DiagnosticConfig where
  deadLink : LSPDiagnosticSeverity
  wikiTitle : LSPDiagnosticSeverity
deriving DecidableEq, Repr

/-- The `Config.Format.Markdown` part of the notebook configuration. -/
structure MarkdownConfig where
  hashtags : Bool
  colonTags : Bool
  multiwordTags : Bool
deriving DecidableEq, Repr

/-- Notebook configuration fields used by the server. -/
structure Config where
  diagnostics : DiagnosticConfig
  markdown : MarkdownConfig
deriving DecidableEq, Repr

/-- A `core.Notebook` handle: its root path, its configuration, and the
index oracles (`FindByHref`, `FindMatching`).  The index is an external
collaborator (§6); each oracle may fail with an index error or answer with
an optional note. -/
structure Notebook where
  path : String
  config : Config
  findByHref : String → Bool → Except String (Option MinimalNote)
  findMatching : String → Except String (Option MinimalNote)

/-- External collaborators of the server that the resolution and
diagnostics code calls besides the notebook index:
  * `dirJoinClean docPath href` is the Go
    `filepath.Clean(filepath.Join(filepath.Dir(docPath), href))` (total);
  * `rel base target` is `filepath.Rel(base, target)`, which can fail;
  * `openNotebook` is `s.notebooks.Open` (the notebook store);
  * `documentLinks` is `doc.DocumentLinks()` (the document model's link
    extractor, not under `src/`; `server.go` treats it as fallible). -/
structure ServerEnv where
  dirJoinClean : String → String → String
  rel : String → String → Except String String
  openNotebook : String → Except String Notebook
  documentLinks : Document → Except String (List DocumentLink)

/-- Modelled from the spec: `strutil.IsURL` (the `strutil` package is not
under `src/`); the spec (§4.2) says URLs are "detected by scheme-prefix
sniffing".  A string is a URL when it starts with a nonempty alphabetic
scheme followed by `"://"`. -/
def isURL (s : String) : Bool :=
  let cs := s.toList
  let scheme := cs.takeWhile (· ≠ ':')
  !scheme.isEmpty && scheme.all Char.isAlpha &&
    ((cs.drop scheme.length).take 3 == [':', '/', '/'])

/-- Modelled from the spec: `pathToURI` (defined outside `src/`) turns an
absolute file path into a `file:` document URI. -/
def pathToURI (path : String) : String := "file://" ++ path

/-- Model of the external Go `filepath.Join` restricted to the way the
server uses it (`filepath.Join(notebook.Path, note.Path)`). -/
def filepathJoin (a b : String) : String := a ++ "/" ++ b

/-- A resolved target (`Note` in the Go code): the minimal note found by
the index together with its derived document URI. -/
structure Note where
  note : MinimalNote
  uri : String
deriving DecidableEq, Repr

/-- Embedding of `Server.noteForHref` (server.go:647-662).  If the href is
a URL, return absent at once (no index query).  Otherwise compute the path
relative to the notebook root (propagating a `filepath.Rel` failure) and
look it up exactly (`FindByHref(path, false)`).  An index error is logged
and returned (`return note, err`).  The second component records the index
queries issued. -/
def noteForHref (env : ServerEnv) (nb : Notebook) (doc : Document)
    (href : String) : Except String (Option MinimalNote) × List Query :=
  if isURL href then (.ok none, [])
  else
    match env.rel nb.path (env.dirJoinClean doc.path href) with
    | .error e => (.error ("failed to resolve href: " ++ href ++ ": " ++ e), [])
    | .ok path => (nb.findByHref path false, [.findByHref path false])

/-- Embedding of `Server.noteMatchingTitle` (server.go:665-675): empty
terms resolve to absent without a query; otherwise query
`FindMatching("title:(" + terms + ")")`; an error is logged and returned. -/
def noteMatchingTitle (nb : Notebook) (terms : String) :
    Except String (Option MinimalNote) × List Query :=
  if terms = "" then (.ok none, [])
  else
    let q := "title:(" ++ terms ++ ")"
    (nb.findMatching q, [.findMatching q])

/-- Wrapping of an index answer into the `Note` result of `noteForLink`
(server.go:638-643): a found note is paired with the URI of
`filepath.Join(notebook.Path, note.Path)`; `nil` note or an error is
returned as is. -/
def wrapNote (nb : Notebook) :
    Except String (Option MinimalNote) → Except String (Option Note)
  | .ok (some n) => .ok (some ⟨n, pathToURI (filepathJoin nb.path n.path)⟩)
  | .ok none => .ok none
  | .error e => .error e

/-- Embedding of `Server.noteForLink` (server.go:628-644).  Step 1 is
`noteForHref`; only when it returns `nil` note and `nil` error and the
link is wiki-style does step 2 (`FindByHref(link.Href, true)`, partial
match) run, and only when that also returns `nil`/`nil` does step 3
(`noteMatchingTitle`) run. -/
def noteForLink (env : ServerEnv) (nb : Notebook) (doc : Document)
    (link : DocumentLink) : Except String (Option Note) × List Query :=
  let (r1, q1) := noteForHref env nb doc link.href
  let (r2, q2) :=
    match r1, link.isWikiLink with
    | .ok none, true =>
      let r := nb.findByHref link.href true
      let q := q1 ++ [Query.findByHref link.href true]
      match r with
      | .ok none =>
        let (rt, qt) := noteMatchingTitle nb link.href
        (rt, q ++ qt)
      | _ => (r, q)
    | _, _ => (r1, q1)
  (wrapNote nb r2, q2)

/-- A published diagnostic (`protocol.Diagnostic` as filled in by the
server: range, severity, source `"zk"`, message). -/
structure Diagnostic where
  range : Range
  severity : LSPDiagnosticSeverity
  source : String
  message : String
deriving DecidableEq, Repr

/-- Observable events of a diagnostics refresh, in program order:
the debounce sleep, clearing the per-document refresh flag, the call to
the link extractor (successful or failed), each index query, a logged
per-link resolution error (the link is skipped), and the final publication
of the diagnostic set keyed by document URI. -/
inductive Event where
  | sleep
  | flagCleared
  | extractLinks
  | extractFailed (e : String)
  | query (q : Query)
  | resolveErr (e : String)
  | publish (uri : String) (diags : List Diagnostic)
deriving DecidableEq, Repr

/-- Body of the per-link loop of the diagnostics refresh goroutine
(server.go:713-745): a URL href is skipped outright; a resolution error is
logged and the link skipped (`continue`); an unresolved link becomes a
"not found" diagnostic unless the dead-link severity is none; a resolved
link becomes a diagnostic carrying the target's title unless it has an
explicit title or the wiki-title severity is none. -/
def diagnosticForLink (env : ServerEnv) (nb : Notebook) (doc : Document)
    (link : DocumentLink) : Option Diagnostic × List Event :=
  if isURL link.href then (none, [])
  else
    let (r, qs) := noteForLink env nb doc link
    let evs := qs.map Event.query
    match r with
    | .error e => (none, evs ++ [.resolveErr e])
    | .ok none =>
      if nb.config.diagnostics.deadLink = 0 then (none, evs)
      else (some ⟨link.range, nb.config.diagnostics.deadLink, "zk", "not found"⟩, evs)
    | .ok (some target) =>
      if link.hasTitle ∨ nb.config.diagnostics.wikiTitle = 0 then (none, evs)
      else
        (some ⟨link.range, nb.config.diagnostics.wikiTitle, "zk", target.note.title⟩,
         evs)

/-- Folding `diagnosticForLink` over the extracted links, accumulating the
diagnostic list and the event trace in loop order. -/
def cycleDiagnostics (env : ServerEnv) (nb : Notebook) (doc : Document)
    (links : List DocumentLink) : List Diagnostic × List Event :=
  links.foldl
    (fun acc link =>
      let (d, evs) := diagnosticForLink env nb doc link
      (acc.1 ++ d.toList, acc.2 ++ evs))
    ([], [])

/-- Embedding of the goroutine body of
`Server.refreshDiagnosticsOfDocument` (server.go:700-751): optionally
sleep the debounce interval, clear `NeedsRefreshDiagnostics` *before*
computing, then extract the links (on an extraction error, log and return
without publishing), run the per-link loop, and publish the completed
diagnostic set (possibly empty) keyed by the document's URI. -/
def runDiagnosticCycle (env : ServerEnv) (nb : Notebook) (doc : Document)
    (delay : Bool) : Document × List Event :=
  let pre : List Event := if delay then [.sleep] else []
  let doc' := { doc with needsRefreshDiagnostics := false }
  match env.documentLinks doc with
  | .error e => (doc', pre ++ [.flagCleared, .extractFailed e])
  | .ok links =>
    let (diags, evs) := cycleDiagnostics env nb doc links
    (doc', pre ++ [.flagCleared, .extractLinks] ++ evs ++ [.publish doc.uri diags])

/-- Embedding of `Server.refreshDiagnosticsOfDocument` (server.go:682-752).
The synchronous part drops the request when the document is already
refreshing, when the notebook cannot be opened, or when both diagnostic
severities are "none" (returning the document unchanged and spawning no
cycle, hence `none` as the trace); otherwise it sets the refresh flag and
spawns the cycle goroutine, whose sequential execution is returned as
`some` trace together with the final document state. -/
def refreshDiagnosticsOfDocument (env : ServerEnv) (doc : Document)
    (delay : Bool) : Document × Option (List Event) :=
  if doc.needsRefreshDiagnostics then (doc, none)
  else
    match env.openNotebook doc.path with
    | .error _ => (doc, none)
    | .ok nb =>
      if nb.config.diagnostics.wikiTitle = 0 ∧ nb.config.diagnostics.deadLink = 0 then
        (doc, none)
      else
        let doc1 := { doc with needsRefreshDiagnostics := true }
        let (doc2, evs) := runDiagnosticCycle env nb doc1 delay
        (doc2, some evs)

/-- Modelled from the spec: the Document Model's `lookBehind` (§4.1, the
`documentStore` is not under `src/`): "return the n raw characters
immediately before a position, clipped at line boundaries (never crosses a
newline)". -/
def lookBehind (doc : Document) (pos : Position) (n : Nat) : String :=
  let line := doc.lines.getD pos.line ""
  let before := line.toList.take pos.character
  String.mk (before.drop (before.length - n))

/-- Modelled from the spec: the Document Model's `lookForward` (§4.1):
the n raw characters immediately after a position, clipped at the end of
the line. -/
def lookForward (doc : Document) (pos : Position) (n : Nat) : String :=
  let line := doc.lines.getD pos.line ""
  String.mk ((line.toList.drop pos.character).take n)

/-- Outcome of the completion trigger classification in
`handler.TextDocumentCompletion`: build link completions, build tag
completions for the given trigger character, or answer with no completions
(the handler's `nil, nil`, which is not an error). -/
inductive CompletionDecision where
  | linkCompletion
  | tagCompletion (trigger : String)
  | noCompletion
deriving DecidableEq, Repr

/-- Embedding of the trigger-classification logic of
`handler.TextDocumentCompletion` (server.go:192-213): look behind 3
characters for `"](("`, then 2 for `"[["`, then 1 for `"#"` (honoured only
when hashtags are enabled) or `":"` (only when colon tags are enabled);
anything else - including a disabled tag trigger - falls through to
`nil, nil`.  The list builders themselves are collaborator calls outside
this decision. -/
def textDocumentCompletion (doc : Document) (pos : Position)
    (cfg : MarkdownConfig) : CompletionDecision :=
  if lookBehind doc pos 3 = "]((" then .linkCompletion
  else if lookBehind doc pos 2 = "[[" then .linkCompletion
  else if lookBehind doc pos 1 = "#" then
    if cfg.hashtags then .tagCompletion "#" else .noCompletion
  else if lookBehind doc pos 1 = ":" then
    if cfg.colonTags then .tagCompletion ":" else .noCompletion
  else .noCompletion

/-- A text edit (`protocol.TextEdit`). -/
structure TextEdit where
  newText : String
  range : Range
deriving DecidableEq, Repr

/-- Helper of `rangeFromPosition` (server.go:924-932): offset the
character of a position by a signed offset with Go `uint32` wrap-around
semantics (`newPos.Character += uint32(offset)` resp.
`-= uint32(-offset)`), i.e. arithmetic modulo `2^32`. -/
def offsetPos (pos : Position) (offset : Int) : Position :=
  { pos with character := (((pos.character : Int) + offset).emod (2 ^ 32)).toNat }

/-- Embedding of `rangeFromPosition` (server.go:923-938). -/
def rangeFromPosition (pos : Position) (startOffset endOffset : Int) : Range :=
  { startPos := offsetPos pos startOffset, endPos := offsetPos pos endOffset }

/-- Context handed to a link formatter
(`core.NewLinkFormatterContext(note, notebook.Path, currentDir)`). -/
structure LinkFormatterContext where
  note : MinimalNote
  notebookPath : String
  currentDir : String

/-- A `core.LinkFormatter`: external collaborator rendering a link for a
note; may fail with a template error. -/
abbrev LinkFormatter := LinkFormatterContext → Except String String

/-- Modelled from the spec: the external Go `filepath.Dir` used to obtain
the document's containing directory; kept abstract to the extent the
claims allow by stripping the last `/`-separated component. -/
def dirOf (path : String) : String :=
  String.intercalate "/" ((path.splitOn "/").dropLast)

/-- Embedding of `Server.newTextEditForLink` (server.go:892-915): format
the link for the note (propagating a formatter failure), then emit a text
edit at the cursor whose end is extended by two exactly when the two
characters after the cursor are `"]]"` or `"))"`, so auto-paired closing
brackets are consumed. -/
def newTextEditForLink (fmt : LinkFormatter) (note : MinimalNote)
    (nbPath : String) (doc : Document) (pos : Position) :
    Except String TextEdit :=
  match fmt ⟨note, nbPath, dirOf doc.path⟩ with
  | .error e => .error e
  | .ok link =>
    let endOffset : Int :=
      if lookForward doc pos 2 = "]]" ∨ lookForward doc pos 2 = "))" then 2 else 0
    .ok ⟨link, rangeFromPosition pos 0 endOffset⟩

/-- Error result of `notebook.NewNote`: either the
`core.ErrNoteExists` conflict (carrying the resolved note name the code
reuses for the lookup) or any other creation error. -/
inductive NewNoteError where
  | noteExists (name : String)
  | other (e : String)
deriving DecidableEq, Repr

/-- Arguments the server passes to `notebook.NewNote`
(server.go:552-560); the date is the already-parsed result of
`dateutil.TimeFromNatural`, modelled opaquely as the parser's output
string. -/
structure NewNoteOpts where
  title : String
  content : String
  dir : String
  group : String
  template : String
  date : String
deriving DecidableEq, Repr

/-- The notebook operations used by `executeCommandNew`:
creation (which may report a name conflict), lookup by exact path
(`FindNote` with `IncludePaths`), and the configured link formatter. -/
structure CmdNotebook where
  path : String
  newNote : NewNoteOpts → Except NewNoteError (Option MinimalNote)
  findNote : List String → Except String (Option MinimalNote)
  newLinkFormatter : Except String LinkFormatter

/-- A location (`protocol.Location`) as used by the
`insertLinkAtLocation` option. -/
structure Location where
  uri : String
  range : Range
deriving DecidableEq, Repr

/-- The decoded options of the `zk.new` command (`cmdNewOpts`,
server.go:509-519). -/
structure CmdNewOpts where
  title : String
  content : String
  dir : String
  group : String
  template : String
  date : String
  edit : Bool
  insertLinkAtLocation : Option Location

/-- Environment of the command executor: the notebook store, the
natural-language date parser (`dateutil.TimeFromNatural`) and the document
store lookup. -/
structure CmdEnv where
  openNotebook : String → Except String CmdNotebook
  parseDate : String → Except String String
  getDocument : String → Option Document

/-- Fire-and-forget client calls issued by `executeCommandNew`
(`workspace/applyEdit` inserting a link, `window/showDocument`). -/
inductive CmdEvent where
  | applyEdit (uri : String) (newText : String)
  | showDocument (uri : String)
deriving DecidableEq, Repr

/-- Embedding of the `opts.InsertLinkAtLocation` branch of
`executeCommandNew` (server.go:577-605): absent option issues nothing;
otherwise the referenced document must be open, the notebook's link
formatter is built and applied, and the resulting link is sent as an
asynchronous workspace edit at the requested location. -/
def insertLinkEvents (env : CmdEnv) (nb : CmdNotebook) (opts : CmdNewOpts)
    (note : MinimalNote) : Except String (List CmdEvent) :=
  match opts.insertLinkAtLocation with
  | none => .ok []
  | some loc =>
    match env.getDocument loc.uri with
    | none => .error ("can't insert link in " ++ loc.uri)
    | some doc =>
      match nb.newLinkFormatter with
      | .error e => .error e
      | .ok fmt =>
        match fmt ⟨note, nb.path, dirOf doc.path⟩ with
        | .error e => .error e
        | .ok link => .ok [.applyEdit loc.uri link]

/-- Embedding of `Server.executeCommandNew` (server.go:521-616) from the
point where the notebook path and options are decoded: open the notebook,
parse the date option, call `NewNote`; when creation fails with
`ErrNoteExists`, recover by looking the existing note up by its resolved
name (any other error, or a lookup error, is returned); a still-absent
note is the "could not generate" error; then handle
`insertLinkAtLocation`, optionally request opening the note, and answer
with the absolute path of the (created or found) note. -/
def executeCommandNew (env : CmdEnv) (wd : String) (opts : CmdNewOpts) :
    Except String (String × List CmdEvent) :=
  match env.openNotebook wd with
  | .error e => .error e
  | .ok nb =>
    match env.parseDate opts.date with
    | .error _ => .error (opts.date ++ ", failed to parse the `date` option")
    | .ok date =>
      let firstTry := nb.newNote
        ⟨opts.title, opts.content, opts.dir, opts.group, opts.template, date⟩
      let recovered : Except String (Option MinimalNote) :=
        match firstTry with
        | .ok n => .ok n
        | .error (.noteExists name) => nb.findNote [name]
        | .error (.other e) => .error e
      match recovered with
      | .error e => .error e
      | .ok none => .error "zk.new could not generate a new note"
      | .ok (some note) =>
        match insertLinkEvents env nb opts note with
        | .error e => .error e
        | .ok evs1 =>
          let absPath := filepathJoin nb.path note.path
          let evs2 : List CmdEvent :=
            if opts.edit then [.showDocument (pathToURI absPath)] else []
          .ok (absPath, evs1 ++ evs2)

/-- Go string slicing `s[0:j]` for a signed index `j` as it occurs in the
references handler: in Go the expression panics ("slice bounds out of
range") when `j < 0` or `j > len(s)`; the panic is modelled as `none`. -/
def goSliceTo (s : String) (j : Int) : Option String :=
  if 0 ≤ j ∧ j ≤ (s.length : Int) then some (String.mk (s.toList.take j.toNat))
  else none

/-- Go `strings.Index(s, sub)`: the first index at which `sub` occurs in
`s`, or `none` for Go's `-1`. -/
def stringsIndex (s sub : String) : Option Nat :=
  (List.range (s.toList.length + 1)).find?
    (fun i => (s.toList.drop i).take sub.toList.length = sub.toList)

/-- Embedding of the per-referencing-note line computation of
`handler.TextDocumentReferences` (server.go:441-449): slice the resolved
target's path as `target.Path[0:len(target.Path)-3]` (no length check; an
out-of-range slice is `none`, where Go panics), search the referencing
note's raw content for that prefix string, and count the newlines before
the match (line 0 when absent). -/
def referenceLine (rawContent : String) (targetPath : String) : Option Nat :=
  match goSliceTo targetPath ((targetPath.length : Int) - 3) with
  | none => none
  | some needle =>
    match stringsIndex rawContent needle with
    | none => some 0
    | some pos => some ((rawContent.toList.take pos).count '\n')

/-! Concrete sample instances used by the witness and counterexample
theorems below.  They instantiate the collaborator oracles with small
total functions so that the embedded server code can be evaluated in
closed form. -/

/-- An empty source range. -/
def noRange : Range := ⟨⟨0, 0⟩, ⟨0, 0⟩⟩

/-- A sample configuration: dead-link severity 2 (warning), wiki-title
severity 1 (error), hashtags enabled, colon tags disabled. -/
def sampleConfig : Config := ⟨⟨2, 1⟩, ⟨true, false, false⟩⟩

/-- A sample environment whose filepath collaborators are the identity
(the href is already notebook-relative) and whose document model extracts
no links. -/
def sampleEnv : ServerEnv :=
  ⟨fun _ href => href, fun _ p => .ok p, fun _ => .error "no notebook store",
   fun _ => .ok []⟩

/-- A sample open document. -/
def sampleDoc : Document :=
  ⟨"file:///nb/notes/a.md", "/nb/notes/a.md", ["text"], false⟩

/-- A notebook whose index answers partial-match queries with a note but
exact-path queries with absent. -/
def c1nb : Notebook :=
  ⟨"/nb", sampleConfig,
   fun _ fuzzy => if fuzzy then .ok (some ⟨"notes/x.md", "X"⟩) else .ok none,
   fun _ => .ok none⟩

/-- A wiki-style link whose href is a URL. -/
def c1link : DocumentLink := ⟨"http://example.com", noRange, false, true⟩

/-- A notebook whose index finds `notes/b.md` under the exact relative
path `b.md` and nothing else. -/
def w1nb : Notebook :=
  ⟨"/nb", sampleConfig,
   fun href fuzzy => if href = "b.md" ∧ fuzzy = false then
      .ok (some ⟨"notes/b.md", "B"⟩) else .ok none,
   fun _ => .ok none⟩

/-- A traditional (non-wiki) link with an explicit path href. -/
def w1link : DocumentLink := ⟨"b.md", noRange, false, false⟩

/-- A non-wiki link whose href is a URL. -/
def w1urlLink : DocumentLink := ⟨"http://example.com", noRange, false, false⟩

/-- A notebook whose index always fails with an I/O error. -/
def c3nb : Notebook :=
  ⟨"/nb", sampleConfig, fun _ _ => .error "index io error", fun _ => .ok none⟩

/-- A non-wiki link used to exercise the failing index. -/
def c3link : DocumentLink := ⟨"b.md", noRange, false, false⟩

/-- A document that is already refreshing (`NeedsRefreshDiagnostics`). -/
def w2doc : Document :=
  ⟨"file:///nb/notes/a.md", "/nb/notes/a.md", ["text"], true⟩

/-- A notebook with both diagnostic severities set to "none". -/
def w4nb : Notebook :=
  ⟨"/nb", ⟨⟨0, 0⟩, ⟨true, false, false⟩⟩, fun _ _ => .ok none, fun _ => .ok none⟩

/-- An environment whose notebook store yields `w4nb`. -/
def w4env : ServerEnv :=
  ⟨fun _ href => href, fun _ p => .ok p, fun _ => .ok w4nb, fun _ => .ok []⟩

/-- A notebook that resolves the exact href `t.md` to a titled note. -/
def w5nb : Notebook :=
  ⟨"/nb", sampleConfig,
   fun href _ => if href = "t.md" then .ok (some ⟨"notes/t.md", "T"⟩) else .ok none,
   fun _ => .ok none⟩

/-- A URL link (never flagged). -/
def w5url : DocumentLink := ⟨"https://zk.example", noRange, false, true⟩

/-- A link that resolves to nothing (dead). -/
def w5dead : DocumentLink := ⟨"dead.md", noRange, false, false⟩

/-- A resolving link without an explicit title. -/
def w5missing : DocumentLink := ⟨"t.md", noRange, false, false⟩

/-- A resolving link with an explicit title. -/
def w5titled : DocumentLink := ⟨"t.md", noRange, true, false⟩

/-- A document exercising every completion trigger on its lines. -/
def w7doc : Document :=
  ⟨"file:///nb/notes/a.md", "/nb/notes/a.md",
   ["ab](( link", "a[[", "x#", "y", "z:"], false⟩

/-- Markdown configuration with hashtags enabled and colon tags
disabled. -/
def w7cfg : MarkdownConfig := ⟨true, false, false⟩

/-- A document whose cursor (line 0, character 2) is followed by `]]`. -/
def w8doc : Document := ⟨"file:///nb/a.md", "/nb/a.md", ["ab]]"], false⟩

/-- A document whose cursor (line 0, character 2) is followed by plain
text. -/
def w8doc2 : Document := ⟨"file:///nb/a.md", "/nb/a.md", ["abxy"], false⟩

/-- The cursor position used by the text-edit geometry witness. -/
def w8pos : Position := ⟨0, 2⟩

/-- A link formatter that renders a fixed wiki link. -/
def w8fmt : LinkFormatter := fun _ => .ok "[[b]]"

/-- The completed note inserted by the formatter. -/
def w8note : MinimalNote := ⟨"b.md", "B"⟩

/-- The edit produced at `w8pos` in `w8doc` (cursor followed by `]]`). -/
def w8edit : TextEdit := ⟨"[[b]]", ⟨⟨0, 2⟩, ⟨0, 4⟩⟩⟩

/-- The edit produced at `w8pos` in `w8doc2` (no auto-paired closer). -/
def w8edit2 : TextEdit := ⟨"[[b]]", ⟨⟨0, 2⟩, ⟨0, 2⟩⟩⟩

/-- The note the create-note witnesses create or find. -/
def w9note : MinimalNote := ⟨"n9.md", "N9"⟩

/-- A notebook in which creation succeeds. -/
def w9fresh : CmdNotebook :=
  ⟨"/nb", fun _ => .ok (some w9note), fun _ => .ok none, .error "unused"⟩

/-- A notebook in which creation reports that `n9.md` already exists and
lookup by that name finds it. -/
def w9conflict : CmdNotebook :=
  ⟨"/nb", fun _ => .error (.noteExists "n9.md"),
   fun names => if names = ["n9.md"] then .ok (some w9note) else .ok none,
   .error "unused"⟩

/-- Command environment built on `w9fresh`. -/
def w9env1 : CmdEnv := ⟨fun _ => .ok w9fresh, fun d => .ok d, fun _ => none⟩

/-- Command environment built on `w9conflict`. -/
def w9env2 : CmdEnv := ⟨fun _ => .ok w9conflict, fun d => .ok d, fun _ => none⟩

/-- The create-note options used by both invocations of the idempotence
witness. -/
def w9opts : CmdNewOpts := ⟨"My note", "", "", "", "", "today", false, none⟩

/-! ## Claims -/

/-- C1, counterexample: the claim says "a href that is a URL always
resolves to absent without any index query", but for a *wiki-style* link
whose href is a URL the code falls through to step 2: it queries the index
with `FindByHref(href, true)` and can resolve to a note.  Here the URL
href `http://example.com` is queried and resolves. -/
theorem c1_url_wiki_link_queries_index :
    isURL c1link.href = true ∧
    noteForLink sampleEnv c1nb sampleDoc c1link =
      (.ok (some ⟨⟨"notes/x.md", "X"⟩, "file:///nb/notes/x.md"⟩),
       [Query.findByHref "http://example.com" true]) :=
  ⟨rfl, rfl⟩

/-- C1, amended: link resolution follows the strict short-circuiting
precedence: step 1 (relative-path lookup) is tried first and its success
short-circuits; a non-wiki-style link never proceeds past step 1; step 2
(partial path match) runs only when step 1 yields nothing and the link is
wiki-style, and its success short-circuits step 3; a URL href skips step
1's index lookup (yielding absent without a query), so a *non-wiki* URL
link resolves to absent with no index query at all - but a wiki-style URL
link still proceeds to steps 2 and 3. -/
theorem c1_resolution_precedence (env : ServerEnv) (nb : Notebook)
    (doc : Document) (link : DocumentLink) :
    (∀ p n, isURL link.href = false →
      env.rel nb.path (env.dirJoinClean doc.path link.href) = .ok p →
      nb.findByHref p false = .ok (some n) →
      noteForLink env nb doc link =
        (.ok (some ⟨n, pathToURI (filepathJoin nb.path n.path)⟩),
         [Query.findByHref p false])) ∧
    (link.isWikiLink = false →
      noteForLink env nb doc link =
        (wrapNote nb (noteForHref env nb doc link.href).1,
         (noteForHref env nb doc link.href).2)) ∧
    (∀ n, (noteForHref env nb doc link.href).1 = .ok none →
      link.isWikiLink = true →
      nb.findByHref link.href true = .ok (some n) →
      noteForLink env nb doc link =
        (.ok (some ⟨n, pathToURI (filepathJoin nb.path n.path)⟩),
         (noteForHref env nb doc link.href).2 ++ [Query.findByHref link.href true])) ∧
    ((noteForHref env nb doc link.href).1 = .ok none →
      link.isWikiLink = true →
      nb.findByHref link.href true = .ok none →
      noteForLink env nb doc link =
        (wrapNote nb (noteMatchingTitle nb link.href).1,
         (noteForHref env nb doc link.href).2 ++ [Query.findByHref link.href true]
           ++ (noteMatchingTitle nb link.href).2)) ∧
    (isURL link.href = true →
      noteForHref env nb doc link.href = (.ok none, []) ∧
      (link.isWikiLink = false → noteForLink env nb doc link = (.ok none, []))) := by
  refine ⟨?_, ?_, ?_, ?_, ?_⟩
  · intro p n hu hr hf
    simp [noteForLink, noteForHref, hu, hr, hf, wrapNote]
  · intro hw
    rcases hh : noteForHref env nb doc link.href with ⟨r1, q1⟩
    cases r1 with
    | error e => simp [noteForLink, hh, hw, wrapNote]
    | ok o => cases o <;> simp [noteForLink, hh, hw, wrapNote]
  · intro n h1 hw hf
    rcases hh : noteForHref env nb doc link.href with ⟨r1, q1⟩
    rw [hh] at h1
    simp at h1
    subst h1
    simp [noteForLink, hh, hw, hf, wrapNote]
  · intro h1 hw hf
    rcases hh : noteForHref env nb doc link.href with ⟨r1, q1⟩
    rw [hh] at h1
    simp at h1
    subst h1
    rcases ht : noteMatchingTitle nb link.href with ⟨rt, qt⟩
    simp [noteForLink, hh, hw, hf, ht]
  · intro hu
    have h1 : noteForHref env nb doc link.href = (.ok none, []) := by
      simp [noteForHref, hu]
    refine ⟨h1, fun hw => ?_⟩
    simp [noteForLink, h1, hw, wrapNote]

/-- C1, witness: a traditional link with href `b.md` resolves through
step 1 alone with exactly one exact-path index query, and a non-wiki URL
link resolves to absent with no query. -/
theorem c1_resolution_precedence_witness :
    noteForLink sampleEnv w1nb sampleDoc w1link =
      (.ok (some ⟨⟨"notes/b.md", "B"⟩, "file:///nb/notes/b.md"⟩),
       [Query.findByHref "b.md" false]) ∧
    noteForLink sampleEnv w1nb sampleDoc w1urlLink = (.ok none, []) := by
  constructor
  · exact (c1_resolution_precedence sampleEnv w1nb sampleDoc w1link).1 "b.md"
      ⟨"notes/b.md", "B"⟩ (by decide) rfl rfl
  · exact ((c1_resolution_precedence sampleEnv w1nb sampleDoc w1urlLink).2.2.2.2
      (by decide)).2 rfl

/-- C3, counterexample: the claim says an index error makes resolve
"return the same absent result as a genuine miss", but `noteForHref`
returns the index error after logging it (`return note, err`), and
`noteForLink` propagates it to its caller: the result is `error`, not the
absent `ok none`. -/
theorem c3_index_error_not_absent :
    noteForLink sampleEnv c3nb sampleDoc c3link =
      (.error "index io error", [Query.findByHref "b.md" false]) ∧
    (Except.error "index io error" : Except String (Option Note)) ≠ .ok none :=
  ⟨rfl, fun h => Except.noConfusion h⟩

/-- C3, amended: index lookup errors (exact-path lookup or title-term
query) are logged and *propagated* by resolve rather than converted to
absent; the diagnostics loop then catches each per-link error, logs it
and skips the link (`continue`), so one bad path never aborts diagnostics
over the other links. -/
theorem c3_index_errors_propagated_and_skipped (env : ServerEnv)
    (nb : Notebook) (doc : Document) (link : DocumentLink) (e : String) :
    (∀ p, isURL link.href = false →
      env.rel nb.path (env.dirJoinClean doc.path link.href) = .ok p →
      nb.findByHref p false = .error e →
      noteForLink env nb doc link = (.error e, [Query.findByHref p false])) ∧
    ((noteForHref env nb doc link.href).1 = .ok none →
      link.isWikiLink = true →
      nb.findByHref link.href true = .ok none →
      nb.findMatching ("title:(" ++ link.href ++ ")") = .error e →
      link.href ≠ "" →
      noteForLink env nb doc link =
        (.error e, (noteForHref env nb doc link.href).2
          ++ [Query.findByHref link.href true]
          ++ [Query.findMatching ("title:(" ++ link.href ++ ")")])) ∧
    ((noteForLink env nb doc link).1 = .error e →
      (diagnosticForLink env nb doc link).1 = none) ∧
    (isURL link.href = false → (noteForLink env nb doc link).1 = .error e →
      (diagnosticForLink env nb doc link).2 =
        (noteForLink env nb doc link).2.map Event.query
          ++ [Event.resolveErr e]) := by
  refine ⟨?_, ?_, ?_, ?_⟩
  · intro p hu hr hf
    simp [noteForLink, noteForHref, hu, hr, hf, wrapNote]
  · intro h1 hw hf hm hne
    rcases hh : noteForHref env nb doc link.href with ⟨r1, q1⟩
    rw [hh] at h1
    simp at h1
    subst h1
    simp [noteForLink, hh, hw, hf, noteMatchingTitle, hne, hm, wrapNote]
  · intro he
    by_cases hu : isURL link.href = true
    · simp [diagnosticForLink, hu]
    · rcases hl : noteForLink env nb doc link with ⟨r, qs⟩
      rw [hl] at he
      simp at he
      subst he
      simp [diagnosticForLink, hu, hl]
  · intro hu he
    rcases hl : noteForLink env nb doc link with ⟨r, qs⟩
    rw [hl] at he
    simp at he
    subst he
    simp [diagnosticForLink, hu, hl]

/-- C3, witness: with an index that fails with an I/O error, resolve
returns that error together with the single query it issued, and the
diagnostics loop produces no diagnostic for the link (skipping it). -/
theorem c3_index_errors_propagated_and_skipped_witness :
    noteForLink sampleEnv c3nb sampleDoc c3link =
      (.error "index io error", [Query.findByHref "b.md" false]) ∧
    (diagnosticForLink sampleEnv c3nb sampleDoc c3link).1 = none := by
  constructor
  · exact (c3_index_errors_propagated_and_skipped sampleEnv c3nb sampleDoc
      c3link "index io error").1 "b.md" (by decide) rfl rfl
  · exact (c3_index_errors_propagated_and_skipped sampleEnv c3nb sampleDoc
      c3link "index io error").2.2.1 rfl

/-- C2: per-document diagnostics reentrancy: a refresh request for a
document whose `NeedsRefreshDiagnostics` flag is already set is a no-op
(the document is unchanged and no cycle is spawned - the request is
dropped, not queued), which bounds active refresh cycles to one per
document; and every cycle body clears the refreshing flag (its first
post-debounce event) before any link extraction or resolution happens,
and leaves the flag cleared. -/
theorem c2_refresh_reentrancy (env : ServerEnv) (nb : Notebook)
    (doc : Document) (delay : Bool) :
    (doc.needsRefreshDiagnostics = true →
      refreshDiagnosticsOfDocument env doc delay = (doc, none)) ∧
    (∃ rest, (runDiagnosticCycle env nb doc delay).2 =
      (if delay then [Event.sleep] else []) ++ Event.flagCleared :: rest) ∧
    (runDiagnosticCycle env nb doc delay).1.needsRefreshDiagnostics = false := by
  refine ⟨?_, ?_, ?_⟩
  · intro h
    simp [refreshDiagnosticsOfDocument, h]
  · rcases hl : env.documentLinks doc with e | links
    · exact ⟨[.extractFailed e], by simp [runDiagnosticCycle, hl]⟩
    · rcases hc : cycleDiagnostics env nb doc links with ⟨diags, evs⟩
      exact ⟨[.extractLinks] ++ evs ++ [.publish doc.uri diags],
        by simp [runDiagnosticCycle, hl, hc]⟩
  · rcases hl : env.documentLinks doc with e | links <;>
      simp [runDiagnosticCycle, hl]

/-- C2, witness: a request on an already-refreshing document is dropped,
and a concrete cycle's trace begins by clearing the flag. -/
theorem c2_refresh_reentrancy_witness :
    refreshDiagnosticsOfDocument sampleEnv w2doc false = (w2doc, none) ∧
    (∃ rest, (runDiagnosticCycle sampleEnv w1nb sampleDoc false).2 =
      Event.flagCleared :: rest) := by
  constructor
  · exact (c2_refresh_reentrancy sampleEnv w1nb w2doc false).1 rfl
  · have h := (c2_refresh_reentrancy sampleEnv w1nb sampleDoc false).2.1
    simpa using h

/-- C4: diagnostics severity gating: when the notebook that the store
opens for the document has both the dead-link and wiki-title severities
set to "none", `refreshDiagnosticsOfDocument` returns before setting the
refresh flag or spawning the cycle goroutine: the document is unchanged
and the cycle trace is `none`, so no link is computed, no index query is
issued and no diagnostics are published for that document. -/
theorem c4_severity_gating (env : ServerEnv) (doc : Document) (delay : Bool)
    (h : ∀ nb, env.openNotebook doc.path = .ok nb →
      nb.config.diagnostics.deadLink = 0 ∧ nb.config.diagnostics.wikiTitle = 0) :
    refreshDiagnosticsOfDocument env doc delay = (doc, none) := by
  unfold refreshDiagnosticsOfDocument
  by_cases hf : doc.needsRefreshDiagnostics = true
  · simp [hf]
  · simp only [hf]
    rcases hn : env.openNotebook doc.path with e | nb
    · simp
    · have := h nb hn
      simp [this.1, this.2]

/-- C4, witness: with a store yielding a notebook whose two severities
are both "none", a (debounced) refresh request is a complete no-op. -/
theorem c4_severity_gating_witness :
    refreshDiagnosticsOfDocument w4env sampleDoc true = (sampleDoc, none) := by
  apply c4_severity_gating
  intro nb h
  have hw : w4nb = nb := by simpa [w4env] using h
  rw [← hw]
  exact ⟨rfl, rfl⟩

/-- C5: diagnostics classification: (a) a URL href is skipped outright
and never flagged; (b) a non-URL link that resolves to nothing yields the
"not found" dead-link diagnostic exactly when the dead-link severity is
above "none"; (c) a link that resolves without an explicit title yields a
diagnostic carrying the target note's title as message exactly when the
wiki-title severity is above "none"; (d) a resolving link with an
explicit title never yields a missing-title diagnostic, whatever the
configuration. -/
theorem c5_diagnostic_classification (env : ServerEnv) (nb : Notebook)
    (doc : Document) (link : DocumentLink) :
    (isURL link.href = true → diagnosticForLink env nb doc link = (none, [])) ∧
    (isURL link.href = false → (noteForLink env nb doc link).1 = .ok none →
      (diagnosticForLink env nb doc link).1 =
        (if nb.config.diagnostics.deadLink = 0 then none
         else some ⟨link.range, nb.config.diagnostics.deadLink, "zk", "not found"⟩)) ∧
    (∀ target, isURL link.href = false →
      (noteForLink env nb doc link).1 = .ok (some target) →
      link.hasTitle = false →
      (diagnosticForLink env nb doc link).1 =
        (if nb.config.diagnostics.wikiTitle = 0 then none
         else some ⟨link.range, nb.config.diagnostics.wikiTitle, "zk",
           target.note.title⟩)) ∧
    (∀ target, (noteForLink env nb doc link).1 = .ok (some target) →
      link.hasTitle = true →
      (diagnosticForLink env nb doc link).1 = none) := by
  refine ⟨?_, ?_, ?_, ?_⟩
  · intro hu
    simp [diagnosticForLink, hu]
  · intro hu hr
    rcases hl : noteForLink env nb doc link with ⟨r, qs⟩
    rw [hl] at hr
    simp at hr
    subst hr
    by_cases hd : nb.config.diagnostics.deadLink = 0 <;>
      simp [diagnosticForLink, hu, hl, hd]
  · intro target hu hr ht
    rcases hl : noteForLink env nb doc link with ⟨r, qs⟩
    rw [hl] at hr
    simp at hr
    subst hr
    by_cases hwt : nb.config.diagnostics.wikiTitle = 0 <;>
      simp [diagnosticForLink, hu, hl, ht, hwt]
  · intro target hr ht
    by_cases hu : isURL link.href = true
    · simp [diagnosticForLink, hu]
    · rcases hl : noteForLink env nb doc link with ⟨r, qs⟩
      rw [hl] at hr
      simp at hr
      subst hr
      simp [diagnosticForLink, hu, hl, ht]

/-- C5, witness: with dead-link severity 2 and wiki-title severity 1, a
URL link is skipped, a dead link yields the "not found" diagnostic, a
resolving untitled link yields a diagnostic carrying the target's title
`T`, and a resolving titled link yields nothing. -/
theorem c5_diagnostic_classification_witness :
    diagnosticForLink sampleEnv w5nb sampleDoc w5url = (none, []) ∧
    (diagnosticForLink sampleEnv w5nb sampleDoc w5dead).1 =
      some ⟨noRange, 2, "zk", "not found"⟩ ∧
    (diagnosticForLink sampleEnv w5nb sampleDoc w5missing).1 =
      some ⟨noRange, 1, "zk", "T"⟩ ∧
    (diagnosticForLink sampleEnv w5nb sampleDoc w5titled).1 = none := by
  refine ⟨?_, ?_, ?_, ?_⟩
  · exact (c5_diagnostic_classification sampleEnv w5nb sampleDoc w5url).1
      (by decide)
  · have h := (c5_diagnostic_classification sampleEnv w5nb sampleDoc w5dead).2.1
      (by decide) rfl
    simpa [sampleConfig, w5nb, w5dead, noRange] using h
  · have h := (c5_diagnostic_classification sampleEnv w5nb sampleDoc
      w5missing).2.2.1 ⟨⟨"notes/t.md", "T"⟩, "file:///nb/notes/t.md"⟩
      (by decide) rfl rfl
    simpa [sampleConfig, w5nb, w5missing, noRange] using h
  · exact (c5_diagnostic_classification sampleEnv w5nb sampleDoc
      w5titled).2.2.2 ⟨⟨"notes/t.md", "T"⟩, "file:///nb/notes/t.md"⟩ rfl rfl

/-- C6: every refresh cycle whose link extraction succeeds ends by
publishing its completed diagnostic set keyed by the document's URI, and
the set published for a document with no links is empty - so a document
that regains a clean state has its stale diagnostics cleared by the empty
publication.  (The document model's `linksOf` is specified as a total
pure function, so under the spec every started cycle extracts
successfully.) -/
theorem c6_cycle_always_publishes (env : ServerEnv) (nb : Notebook)
    (doc : Document) (delay : Bool) (links : List DocumentLink)
    (h : env.documentLinks doc = .ok links) :
    (runDiagnosticCycle env nb doc delay).2 =
      (if delay then [Event.sleep] else [])
        ++ [Event.flagCleared, Event.extractLinks]
        ++ (cycleDiagnostics env nb doc links).2
        ++ [Event.publish doc.uri (cycleDiagnostics env nb doc links).1] ∧
    (links = [] → (cycleDiagnostics env nb doc links).1 = []) := by
  constructor
  · rcases hc : cycleDiagnostics env nb doc links with ⟨diags, evs⟩
    simp [runDiagnosticCycle, h, hc]
  · intro hl
    subst hl
    rfl

/-- C6, witness: a cycle over a document with no links ends with the
publication of the empty diagnostic set keyed by the document's URI. -/
theorem c6_cycle_always_publishes_witness :
    (runDiagnosticCycle sampleEnv w1nb sampleDoc false).2 =
      [Event.flagCleared, Event.extractLinks,
       Event.publish "file:///nb/notes/a.md" []] := by
  have h := c6_cycle_always_publishes sampleEnv w1nb sampleDoc false [] rfl
  simpa [cycleDiagnostics, sampleDoc] using h.1

/-- C7: completion trigger classification inspects the 1-3 characters
before the cursor in order of specificity: the three-character trigger
`](( ` wins over the two-character wiki-link trigger `[[`, which wins
over the single-character tag triggers; `#` triggers tag completion only
when hashtag tags are enabled and `:` only when colon tags are enabled;
no matching trigger yields no completions (a value, not an error). -/
theorem c7_completion_trigger_precedence (doc : Document) (pos : Position)
    (cfg : MarkdownConfig) :
    (lookBehind doc pos 3 = "]((" →
      textDocumentCompletion doc pos cfg = .linkCompletion) ∧
    (lookBehind doc pos 3 ≠ "]((" → lookBehind doc pos 2 = "[[" →
      textDocumentCompletion doc pos cfg = .linkCompletion) ∧
    (lookBehind doc pos 3 ≠ "]((" → lookBehind doc pos 2 ≠ "[[" →
      lookBehind doc pos 1 = "#" →
      textDocumentCompletion doc pos cfg =
        (if cfg.hashtags then .tagCompletion "#" else .noCompletion)) ∧
    (lookBehind doc pos 3 ≠ "]((" → lookBehind doc pos 2 ≠ "[[" →
      lookBehind doc pos 1 = ":" →
      textDocumentCompletion doc pos cfg =
        (if cfg.colonTags then .tagCompletion ":" else .noCompletion)) ∧
    (lookBehind doc pos 3 ≠ "]((" → lookBehind doc pos 2 ≠ "[[" →
      lookBehind doc pos 1 ≠ "#" → lookBehind doc pos 1 ≠ ":" →
      textDocumentCompletion doc pos cfg = .noCompletion) := by
  refine ⟨?_, ?_, ?_, ?_, ?_⟩ <;> intros <;> simp_all [textDocumentCompletion]

/-- C7, witness: on a concrete document, `](( ` and `[[` yield link
completions, `#` yields hashtag completions (hashtags enabled), `:`
yields nothing (colon tags disabled), and a plain character yields
nothing. -/
theorem c7_completion_trigger_precedence_witness :
    textDocumentCompletion w7doc ⟨0, 5⟩ w7cfg = .linkCompletion ∧
    textDocumentCompletion w7doc ⟨1, 3⟩ w7cfg = .linkCompletion ∧
    textDocumentCompletion w7doc ⟨2, 2⟩ w7cfg = .tagCompletion "#" ∧
    textDocumentCompletion w7doc ⟨4, 2⟩ w7cfg = .noCompletion ∧
    textDocumentCompletion w7doc ⟨3, 1⟩ w7cfg = .noCompletion := by
  refine ⟨?_, ?_, ?_, ?_, ?_⟩
  · exact (c7_completion_trigger_precedence w7doc ⟨0, 5⟩ w7cfg).1 (by decide)
  · exact (c7_completion_trigger_precedence w7doc ⟨1, 3⟩ w7cfg).2.1
      (by decide) (by decide)
  · have h := (c7_completion_trigger_precedence w7doc ⟨2, 2⟩ w7cfg).2.2.1
      (by decide) (by decide) (by decide)
    simpa [w7cfg] using h
  · have h := (c7_completion_trigger_precedence w7doc ⟨4, 2⟩ w7cfg).2.2.2.1
      (by decide) (by decide) (by decide)
    simpa [w7cfg] using h
  · exact (c7_completion_trigger_precedence w7doc ⟨3, 1⟩ w7cfg).2.2.2.2
      (by decide) (by decide) (by decide) (by decide)

/-- Offsetting a position by a nonnegative amount below the `uint32`
bound leaves the wrap-around inactive. -/
theorem offsetPos_eq_of_lt (pos : Position) (k : Nat)
    (h : pos.character + k < 2 ^ 32) :
    offsetPos pos (k : Int) = { pos with character := pos.character + k } := by
  cases pos with
  | mk l c =>
    simp only [offsetPos, Position.mk.injEq]
    refine ⟨trivial, ?_⟩
    have h1 : (0 : Int) ≤ (c : Int) + (k : Int) := by positivity
    have h2 : (c : Int) + (k : Int) < 2 ^ 32 := by exact_mod_cast h
    have h3 : ((c : Int) + (k : Int)).emod (2 ^ 32) = (c : Int) + (k : Int) :=
      Int.emod_eq_of_lt h1 h2
    rw [h3]
    omega

/-- C8: completion primary text-edit geometry: the edit starts at the
cursor; its end is exactly two characters past the cursor when the two
characters after the cursor are `]]` or `))`, and the cursor itself (an
empty range) otherwise.  The `uint32` bound keeps the wrap-around of the
character arithmetic inactive. -/
theorem c8_textedit_geometry (fmt : LinkFormatter) (note : MinimalNote)
    (nbPath : String) (doc : Document) (pos : Position) (edit : TextEdit)
    (hc : pos.character + 2 < 2 ^ 32)
    (h : newTextEditForLink fmt note nbPath doc pos = .ok edit) :
    ((lookForward doc pos 2 = "]]" ∨ lookForward doc pos 2 = "))") →
      edit.range = ⟨pos, { pos with character := pos.character + 2 }⟩) ∧
    (lookForward doc pos 2 ≠ "]]" → lookForward doc pos 2 ≠ "))" →
      edit.range = ⟨pos, pos⟩) := by
  have h0 : offsetPos pos (0 : Int) = pos := by
    have h' := offsetPos_eq_of_lt pos 0 (by omega)
    simpa using h'
  have h2 : offsetPos pos (2 : Int) =
      { pos with character := pos.character + 2 } := by
    have h' := offsetPos_eq_of_lt pos 2 hc
    simpa using h'
  rcases hf : fmt ⟨note, nbPath, dirOf doc.path⟩ with e | link
  · rw [newTextEditForLink, hf] at h
    exact absurd h (by simp)
  · rw [newTextEditForLink, hf] at h
    simp only [Except.ok.injEq] at h
    subst h
    constructor
    · intro hsuf
      simp [rangeFromPosition, if_pos hsuf, h0, h2]
    · intro hl hr
      have hn : ¬ (lookForward doc pos 2 = "]]" ∨ lookForward doc pos 2 = "))") := by
        rintro (hh | hh)
        · exact hl hh
        · exact hr hh
      simp [rangeFromPosition, if_neg hn, h0]

/-- C8, witness: with `]]` after the cursor at character 2 the emitted
range ends at character 4; with plain text there it ends at character 2. -/
theorem c8_textedit_geometry_witness :
    w8edit.range = ⟨w8pos, { w8pos with character := w8pos.character + 2 }⟩ ∧
    w8edit2.range = ⟨w8pos, w8pos⟩ := by
  constructor
  · exact (c8_textedit_geometry w8fmt w8note "/nb" w8doc w8pos w8edit
      (by decide) rfl).1 (.inl rfl)
  · exact (c8_textedit_geometry w8fmt w8note "/nb" w8doc2 w8pos w8edit2
      (by decide) rfl).2 (by decide) (by decide)

/-- C9: create-note is create-or-find: when `NewNote` fails with the
note-already-exists conflict, the command does not fail - it looks the
existing note up by the conflicting name and answers with its absolute
path exactly as a successful creation of that note would; hence two
invocations with identical options, the first creating note `n` and the
second hitting the conflict and finding `n`, answer the same path. -/
theorem c9_create_or_find (env : CmdEnv) (wd : String) (opts : CmdNewOpts)
    (nb : CmdNotebook) (date name : String) (n : MinimalNote)
    (hnb : env.openNotebook wd = .ok nb)
    (hd : env.parseDate opts.date = .ok date)
    (hins : opts.insertLinkAtLocation = none)
    (hedit : opts.edit = false) :
    (nb.newNote ⟨opts.title, opts.content, opts.dir, opts.group,
        opts.template, date⟩ = .error (.noteExists name) →
      nb.findNote [name] = .ok (some n) →
      executeCommandNew env wd opts = .ok (filepathJoin nb.path n.path, [])) ∧
    (nb.newNote ⟨opts.title, opts.content, opts.dir, opts.group,
        opts.template, date⟩ = .ok (some n) →
      executeCommandNew env wd opts = .ok (filepathJoin nb.path n.path, [])) := by
  constructor
  · intro hnew hfind
    simp [executeCommandNew, hnb, hd, hnew, hfind, insertLinkEvents, hins, hedit]
  · intro hnew
    simp [executeCommandNew, hnb, hd, hnew, insertLinkEvents, hins, hedit]

/-- C9, witness: creating "My note" in a fresh notebook and re-running
the identical command against a notebook where the note already exists
both answer `/nb/n9.md`. -/
theorem c9_create_or_find_witness :
    executeCommandNew w9env1 "/nb" w9opts = .ok ("/nb/n9.md", []) ∧
    executeCommandNew w9env2 "/nb" w9opts = .ok ("/nb/n9.md", []) := by
  constructor
  · exact (c9_create_or_find w9env1 "/nb" w9opts w9fresh "today" "n9.md"
      w9note rfl rfl rfl rfl).2 rfl
  · exact (c9_create_or_find w9env2 "/nb" w9opts w9conflict "today" "n9.md"
      w9note rfl rfl rfl rfl).1 rfl rfl

/-- C10: the references handler slices the resolved target's path as
`target.Path[0:len(target.Path)-3]` without a length check; the slice is
in bounds - and the per-note line computation total - exactly when the
path is at least 3 characters long; for a shorter path the slice index is
negative and out of range (a Go runtime panic, modelled as `none`). -/
theorem c10_reference_slice_bounds (rawContent targetPath : String) :
    (referenceLine rawContent targetPath).isSome ↔ 3 ≤ targetPath.length := by
  by_cases hc : 3 ≤ targetPath.length
  · have h : (0 : Int) ≤ (targetPath.length : Int) - 3 ∧
        (targetPath.length : Int) - 3 ≤ (targetPath.length : Int) := by
      constructor <;> omega
    simp only [referenceLine, goSliceTo, if_pos h]
    rcases hi : stringsIndex rawContent
        (String.mk (targetPath.toList.take
          ((targetPath.length : Int) - 3).toNat)) with _ | p <;>
      simp [hi, hc]
  · have h : ¬ ((0 : Int) ≤ (targetPath.length : Int) - 3 ∧
        (targetPath.length : Int) - 3 ≤ (targetPath.length : Int)) := by
      intro hh
      rcases hh with ⟨h1, _⟩
      omega
    simp [referenceLine, goSliceTo, if_neg h, hc]

end Zk
